import Mathlib

/-!
Verification development for the `aiassistant` repository.

The repository contains two LangGraph pipelines:

* the interview pipeline (`src/my_agent/utils/__init__.py`):
  `parse_email -> summarize -> schedule -> reply`, with human review
  (accept / override) after the summary, the proposed interview slot and
  the drafted reply;
* the Gmail pipeline (`src/agent.py`):
  `summarize -> check_reply -> generate_reply -> send_email`, where nodes
  return dictionaries holding only the keys they set.

Language-model calls and operator console input are modelled as explicit
oracle parameters; `datetime` values in a fixed local timezone are modelled
as a day index plus a second-of-day.  Python strings are modelled through
their character lists (`String.data`), with the string primitives used by
the code re-implemented at the character level so that every definition
computes by kernel reduction.
-/

namespace AIAssist

/-! ### Python string primitives (character level, ASCII-faithful) -/

/-- Characters stripped by Python's `str.strip()` with no arguments. -/
def pyIsSpace (c : Char) : Bool :=
  c = ' ' || c = '\t' || c = '\n' || c = '\r' || c = '\x0b' || c = '\x0c'

/-- `str.strip()` on the character list: drop leading and trailing whitespace. -/
def stripChars (l : List Char) : List Char :=
  ((l.dropWhile pyIsSpace).reverse.dropWhile pyIsSpace).reverse

/-- Python `s.strip()`. -/
def pyStrip (s : String) : String := ⟨stripChars s.data⟩

/-- Python `s.lower()` (ASCII case folding, as used by the code on ASCII data). -/
def pyLower (s : String) : String := ⟨s.data.map Char.toLower⟩

/-- Python `s.upper()` (ASCII case folding, as used by the code on ASCII data). -/
def pyUpper (s : String) : String := ⟨s.data.map Char.toUpper⟩

/-- Python `s.startswith(pre)`. -/
def pyStartsWith (pre s : String) : Bool := pre.data.isPrefixOf s.data

/-- Split a character list at newline characters (all parts kept). -/
def splitNLChars : List Char → List (List Char)
  | [] => [[]]
  | c :: rest =>
    if c = '\n' then [] :: splitNLChars rest
    else
      match splitNLChars rest with
      | [] => [[c]]
      | h :: t => (c :: h) :: t

/-- Python `s.splitlines()` restricted to `\n` separators.  On text that has
already been stripped (the only way the code uses it) this agrees with
CPython for every input whose line breaks are `\n`. -/
def pySplitlines (s : String) : List String := (splitNLChars s.data).map String.mk

/-- Everything after the first `:` of the list (the `[1]` component of
Python `s.split(":", 1)`; the code only calls it on lines that are known
to contain a colon). -/
def afterColonChars : List Char → List Char
  | [] => []
  | c :: rest => if c = ':' then rest else afterColonChars rest

/-- Python `s.split(":", 1)[1]`. -/
def afterColon (s : String) : String := ⟨afterColonChars s.data⟩

/-- Python `"\n".join(lines)`. -/
def joinNL (ls : List String) : String :=
  match ls with
  | [] => ""
  | h :: t => ⟨t.foldl (fun acc p => acc ++ '\n' :: p.data) h.data⟩

/-- Python substring test `needle in hay` on character lists. -/
def hasSub (needle hay : List Char) : Bool :=
  hay.tails.any fun t => needle.isPrefixOf t

/-- Python `needle in hay` for strings. -/
def pyIn (needle hay : String) : Bool := hasSub needle.data hay.data

/-- Python truthiness of an optional string (`None` and `""` are falsy). -/
def pyTruthyOptStr : Option String → Bool
  | none => false
  | some s => !(s.data = [])

/-- Python truthiness of a string (`""` is falsy). -/
def pyTruthyStr (s : String) : Bool := !(s.data = [])

/-! ### Interview pipeline (`src/my_agent/utils/__init__.py`) -/

namespace Interview

/-- The `ParsedEmail` pydantic model. -/
structure ParsedEmail where
  sender : Option String
  subject : Option String
  body : String
  requested_times : List String := []
  deriving Repr, DecidableEq

/-- A timezone-aware `datetime` in one fixed local zone: a day index plus the
second of that day (the code zeroes `second` and `microsecond` on the slot it
builds, so second granularity is exact for everything the claims mention). -/
structure LocalDT where
  day : Int
  sec : Nat
  deriving Repr, DecidableEq

/-- `dt + timedelta(days=n)`: Python `datetime` arithmetic acts on the wall
clock, so the day index moves and the time of day is unchanged. -/
def addDays (d : LocalDT) (n : Int) : LocalDT := ⟨d.day + n, d.sec⟩

/-- `dt.replace(hour=10, minute=0, second=0, microsecond=0)`. -/
def atTenLocal (d : LocalDT) : LocalDT := ⟨d.day, 10 * 3600⟩

/-- `dt + timedelta(seconds=n)` with day carry. -/
def addSeconds (d : LocalDT) (n : Nat) : LocalDT :=
  ⟨d.day + ((d.sec + n) / 86400 : Nat), (d.sec + n) % 86400⟩

/-- The `EventPlan` pydantic model.  The source field named `end` is called
`stop` here because `end` is a reserved word in Lean. -/
structure EventPlan where
  title : String
  description : String
  location : Option String
  start : LocalDT
  stop : LocalDT
  attendees : List String
  deriving Repr, DecidableEq

/-- The `AgentState` TypedDict. -/
structure AgentState where
  email_text : String
  parsed : Option ParsedEmail
  summary : Option String
  reply : Option String
  event : Option EventPlan
  timezone : String
  deriving Repr, DecidableEq

/-- The header-scanning loop of `parse_email_node`: fold over the lines,
remembering the first `Subject:` and `From:` headers and collecting every
other line (in original, unstripped form) as a body line. -/
def parseLinesAux : List String → Option String → Option String →
    List String → Option String × Option String × List String
  | [], subject, sender, acc => (subject, sender, acc.reverse)
  | line :: rest, subject, sender, acc =>
    let l := pyStrip line
    if pyStartsWith "subject:" (pyLower l) && subject.isNone then
      parseLinesAux rest (some (pyStrip (afterColon l))) sender acc
    else if pyStartsWith "from:" (pyLower l) && sender.isNone then
      parseLinesAux rest subject (some (pyStrip (afterColon l))) acc
    else
      parseLinesAux rest subject sender (line :: acc)

/-- The pure core of `parse_email_node`: strip the raw text, scan its lines
for headers, and join the remaining lines into the body. -/
def parseEmail (text : String) : ParsedEmail :=
  let r := parseLinesAux (pySplitlines (pyStrip text)) none none []
  { sender := r.2.1, subject := r.1, body := pyStrip (joinNL r.2.2) }

/-- `parse_email_node`: the Python function assigns `state["parsed"]` on the
incoming dictionary and returns that same (entire) state object. -/
def parse_email_node (s : AgentState) : AgentState :=
  { s with parsed := some (parseEmail s.email_text) }

/-- `input().strip().lower() in ("y", "yes")`: the operator accepted. -/
def isAccept (resp : String) : Bool :=
  let r := pyLower (pyStrip resp)
  r = "y" || r = "yes"

/-- `summarize_node`: propose the stripped model summary, then ask the
operator; any response other than y/yes replaces it with the operator's
(stripped) free-form text.  `llmSummary` is the language-model oracle,
`resp` the approval answer, `ov` the override line.  Returns `none` when the
function's `assert parsed is not None` fails. -/
def summarize_node (llmSummary : String → String) (resp ov : String)
    (s : AgentState) : Option AgentState :=
  match s.parsed with
  | none => none
  | some p =>
    let proposal := pyStrip (llmSummary p.body)
    let final := if isAccept resp then proposal else pyStrip ov
    some { s with summary := some final }

/-- `state.get("timezone") or "UTC"`. -/
def resolveZone (tz : String) : String := if pyTruthyStr tz then tz else "UTC"

/-- The slot `schedule_node` proposes from the current local time `now`:
start at 10:00 on the next day, finish 30 minutes (1800 seconds) later. -/
def proposeSlot (now : LocalDT) : LocalDT × LocalDT :=
  let start := atTenLocal (addDays now 1)
  (start, addSeconds start 1800)

/-- The `EventPlan` that `schedule_node` builds before human review
(`subject or "Interview"` and `[sender] if sender else []` follow Python
truthiness, so empty strings count as absent). -/
def proposedPlan (now : LocalDT) (p : ParsedEmail) : EventPlan :=
  { title := match p.subject with
      | some sub => if pyTruthyStr sub then sub else "Interview"
      | none => "Interview"
    description := "30-minute interview (tentative)."
    location := none
    start := (proposeSlot now).1
    stop := (proposeSlot now).2
    attendees := match p.sender with
      | some snd => if pyTruthyStr snd then [snd] else []
      | none => [] }

/-- `schedule_node`: build the proposal, review it with the operator; on a
non-accepting answer the override line is parsed (`ovParse` is the result of
`dateutil.parser.parse`, `none` when it raised), a successful parse moves the
slot to the parsed start plus 30 minutes, and a failed parse keeps the
original proposal at once ("Invalid input, keeping original.").  `clock`
yields the current local time in a named zone.  Returns `none` when
`state["parsed"]` is `None` (attribute access would raise). -/
def schedule_node (clock : String → LocalDT) (resp : String)
    (ovParse : Option LocalDT) (s : AgentState) : Option AgentState :=
  match s.parsed with
  | none => none
  | some p =>
    let now := clock (resolveZone s.timezone)
    let plan0 := proposedPlan now p
    let plan :=
      if isAccept resp then plan0
      else
        match ovParse with
        | some d => { plan0 with start := d, stop := addSeconds d 1800 }
        | none => plan0
    some { s with event := some plan }

/-- `reply_node`: draft a reply from the summary, the planned slot and the
timezone through the model oracle, then review it exactly like the summary.
Returns `none` when `state["event"]` is `None` (attribute access would
raise). -/
def reply_node (llmReply : Option String → EventPlan → String → String)
    (resp ov : String) (s : AgentState) : Option AgentState :=
  match s.event with
  | none => none
  | some plan =>
    let draft := pyStrip (llmReply s.summary plan (resolveZone s.timezone))
    let final := if isAccept resp then draft else pyStrip ov
    some { s with reply := some final }

/-- The dictionary a node hands back to the framework: for each key, whether
it is present and with which value.  A value of `none` means the key is
absent from the returned dictionary. -/
structure AgentUpdate where
  email_text : Option String
  parsed : Option (Option ParsedEmail)
  summary : Option (Option String)
  reply : Option (Option String)
  event : Option (Option EventPlan)
  timezone : Option String
  deriving Repr, DecidableEq

/-- View a full state as the dictionary containing every key (this is what a
node that returns the whole mutated state hands back). -/
def stateAsUpdate (s : AgentState) : AgentUpdate :=
  { email_text := some s.email_text
    parsed := some s.parsed
    summary := some s.summary
    reply := some s.reply
    event := some s.event
    timezone := some s.timezone }

/-- The dictionary value `parse_email_node` returns: the entire mutated
state, not just the key it changed. -/
def parse_email_ret (s : AgentState) : AgentUpdate :=
  stateAsUpdate (parse_email_node s)

/-- Does the returned dictionary mention some field with its old, unchanged
value?  A node that returns only a partial update describing what changed
never does. -/
def mentionsUnchangedField (s : AgentState) (u : AgentUpdate) : Bool :=
  (match u.email_text with | some v => v = s.email_text | none => false) ||
  (match u.timezone with | some v => v = s.timezone | none => false) ||
  (match u.summary with | some v => v = s.summary | none => false) ||
  (match u.reply with | some v => v = s.reply | none => false) ||
  (match u.event with | some v => v = s.event | none => false) ||
  (match u.parsed with | some v => v = s.parsed | none => false)

end Interview

/-! ### Gmail pipeline (`src/agent.py`) -/

namespace Gmail

/-- The `EmailState` TypedDict.  For the optional keys, "never written" and
"written as `None`" are conflated as `none`: both are falsy to the `if not
state[...]` tests, which is all the code does with them. -/
structure EmailState where
  email : String
  recipient : String
  subject : String
  summary : Option String := none
  needs_reply : Option Bool := none
  draft_reply : Option String := none
  status : Option String := none
  deriving Repr, DecidableEq

/-- The dictionary a Gmail node returns: for each key of `EmailState`,
whether the returned dictionary contains it (outer option) and the value
stored under it (which may itself be Python `None`, the inner option). -/
structure EmailUpdate where
  email : Option String := none
  recipient : Option String := none
  subject : Option String := none
  summary : Option (Option String) := none
  needs_reply : Option (Option Bool) := none
  draft_reply : Option (Option String) := none
  status : Option (Option String) := none
  deriving Repr, DecidableEq

/-- The framework's channel update for this schema: every key present in the
returned dictionary overwrites the previous value (all fields of both
TypedDicts are plain replace-on-write channels). -/
def applyUpdate (s : EmailState) (u : EmailUpdate) : EmailState :=
  { email := u.email.getD s.email
    recipient := u.recipient.getD s.recipient
    subject := u.subject.getD s.subject
    summary := u.summary.getD s.summary
    needs_reply := u.needs_reply.getD s.needs_reply
    draft_reply := u.draft_reply.getD s.draft_reply
    status := u.status.getD s.status }

/-- The three language-model-backed tools, as oracles; each tool strips its
model output before returning it. -/
structure GmailEnv where
  summarizeLLM : String → String
  checkReplyLLM : String → String
  generateReplyLLM : String → String

/-- The `summarize_email` tool: model output, stripped. -/
def summarize_email_tool (env : GmailEnv) (email : String) : String :=
  pyStrip (env.summarizeLLM email)

/-- The `check_reply` tool: model output, stripped. -/
def check_reply_tool (env : GmailEnv) (email : String) : String :=
  pyStrip (env.checkReplyLLM email)

/-- The `generate_reply` tool: model output, stripped. -/
def generate_reply_tool (env : GmailEnv) (email : String) : String :=
  pyStrip (env.generateReplyLLM email)

/-- `"YES" in result.upper()`: the test `check_reply_node` applies to the
tool's answer. -/
def yesFlag (result : String) : Bool := pyIn "YES" (pyUpper result)

/-- `summarize_node` of the Gmail pipeline: returns only the `summary` key. -/
def summarize_node (env : GmailEnv) (s : EmailState) : EmailUpdate :=
  { summary := some (some (summarize_email_tool env s.email)) }

/-- `check_reply_node`: `needs_reply = "YES" in result.upper()`; returns only
the `needs_reply` key. -/
def check_reply_node (env : GmailEnv) (s : EmailState) : EmailUpdate :=
  { needs_reply := some (some (yesFlag (check_reply_tool env s.email))) }

/-- `generate_reply_node`: when `needs_reply` is falsy the returned
dictionary sets `draft_reply` to `None`; otherwise it carries the generated
draft.  Returns only the `draft_reply` key. -/
def generate_reply_node (env : GmailEnv) (s : EmailState) : EmailUpdate :=
  if s.needs_reply = some true then
    { draft_reply := some (some (generate_reply_tool env s.email)) }
  else
    { draft_reply := some none }

/-- One dispatched email: the arguments `send_email_node` hands to the
`send_email` tool. -/
structure SendAction where
  recipient : String
  subject : String
  body : String
  deriving Repr, DecidableEq

/-- The receipt string the `send_email` tool returns. -/
def sendResult (a : SendAction) : String :=
  "Email sent to " ++ a.recipient ++ " with subject \x27" ++ a.subject ++ "\x27."

/-- `send_email_node`: when `draft_reply` is falsy (unset/`None`/empty) no
send happens and the status is "No reply needed"; otherwise the draft is
sent with subject `Re: {subject}` and the tool's receipt becomes the status.
The second component lists the sends performed. -/
def send_email_node (s : EmailState) : EmailUpdate × List SendAction :=
  match s.draft_reply with
  | none => ({ status := some (some "No reply needed") }, [])
  | some body =>
    if pyTruthyStr body then
      let act : SendAction := ⟨s.recipient, "Re: " ++ s.subject, body⟩
      ({ status := some (some (sendResult act)) }, [act])
    else
      ({ status := some (some "No reply needed") }, [])

end Gmail

/-! ### Graph executor

The two pipelines wire their nodes into a `StateGraph` and call the compiled
graph's `invoke`.  The run loop itself lives in the external langgraph
library, so it is modelled from the spec; the graphs (entry point, nodes and
edges) are transcribed from the source. -/

/-- A compiled linear graph: entry node, successor map (`none` is the END
marker) and a state transformer per node. -/
structure FGraph (ι St : Type) where
  entry : ι
  next : ι → Option ι
  fn : ι → St → St

/-- Modelled from the spec: the GraphExecutor run loop of §4.6 (the source
delegates it to langgraph's compiled `invoke`).  Starting at a node, apply
its function, then follow the unique outgoing edge until the END marker;
returns the list of nodes visited, in order, and the final state.  `fuel`
bounds the walk so the function is total; every graph in this file is
visited completely with any fuel of at least its node count. -/
def runFrom {ι St : Type} (g : FGraph ι St) : Nat → ι → St → List ι × St
  | 0, _, s => ([], s)
  | fuel+1, cur, s =>
    let s2 := g.fn cur s
    match g.next cur with
    | none => ([cur], s2)
    | some nxt =>
      let r := runFrom g fuel nxt s2
      (cur :: r.1, r.2)

/-- Run a graph from its entry node. -/
def runGraph {ι St : Type} (g : FGraph ι St) (fuel : Nat) (s : St) :
    List ι × St :=
  runFrom g fuel g.entry s

namespace Interview

/-- The node identifiers of `build_graph`. -/
inductive INode
  | parse_email | summarize | schedule | reply
  deriving Repr, DecidableEq

/-- Everything external an interview run consumes: the two model oracles, the
clock, and the operator's console answers at the three checkpoints. -/
structure InterviewEnv where
  llmSummary : String → String
  llmReply : Option String → EventPlan → String → String
  clock : String → LocalDT
  sumResp : String
  sumOv : String
  slotResp : String
  slotOv : Option LocalDT
  replyResp : String
  replyOv : String

/-- The state transformer attached to each node name by `build_graph`
(`add_node` calls); a node whose assertion fails leaves the run failed
(`none`). -/
def interviewStep (env : InterviewEnv) :
    INode → Option AgentState → Option AgentState
  | .parse_email, st => st.map parse_email_node
  | .summarize, st => st.bind (summarize_node env.llmSummary env.sumResp env.sumOv)
  | .schedule, st => st.bind (schedule_node env.clock env.slotResp env.slotOv)
  | .reply, st => st.bind (reply_node env.llmReply env.replyResp env.replyOv)

/-- The edges of `build_graph`: parse_email → summarize → schedule → reply →
END. -/
def interviewNext : INode → Option INode
  | .parse_email => some .summarize
  | .summarize => some .schedule
  | .schedule => some .reply
  | .reply => none

/-- The compiled interview graph (entry point `parse_email`). -/
def interviewGraph (env : InterviewEnv) : FGraph INode (Option AgentState) :=
  { entry := .parse_email, next := interviewNext, fn := interviewStep env }

end Interview

namespace Gmail

/-- The node identifiers of the Gmail `workflow`. -/
inductive GNode
  | summarize | check_reply | generate_reply | send_email
  deriving Repr, DecidableEq

/-- The state transformer attached to each node name (`add_node` calls); the
state also accumulates the log of sends performed. -/
def gmailStep (env : GmailEnv) :
    GNode → EmailState × List SendAction → EmailState × List SendAction
  | .summarize, (s, log) => (applyUpdate s (summarize_node env s), log)
  | .check_reply, (s, log) => (applyUpdate s (check_reply_node env s), log)
  | .generate_reply, (s, log) => (applyUpdate s (generate_reply_node env s), log)
  | .send_email, (s, log) =>
    let r := send_email_node s
    (applyUpdate s r.1, log ++ r.2)

/-- The edges of the Gmail `workflow`: summarize → check_reply →
generate_reply → send_email → END. -/
def gmailNext : GNode → Option GNode
  | .summarize => some .check_reply
  | .check_reply => some .generate_reply
  | .generate_reply => some .send_email
  | .send_email => none

/-- The compiled Gmail graph (entry point `summarize`). -/
def gmailGraph (env : GmailEnv) : FGraph GNode (EmailState × List SendAction) :=
  { entry := .summarize, next := gmailNext, fn := gmailStep env }

end Gmail

/-! ### Tool-invocation loop (spec §4.4)

`src/my_agent/utils/tools.py` binds the tools to the model and performs a
single invocation; the repository contains no loop executor, so the
DECIDING/ACTING cycle with its iteration cap is modelled from the spec. -/

/-- The only fatal error of the loop. -/
inductive LoopError
  | maxIterationsExceeded
  deriving Repr, DecidableEq

/-- ACTING: execute the emitted requests strictly in emission order,
recording each outcome into the state before the next request runs. -/
def runActs {St Req : Type} (act : St → Req → St) (s : St) (reqs : List Req) : St :=
  reqs.foldl act s

/-- One DECIDING→ACTING round trip (a fixpoint of states where the decision
function emits no requests). -/
def roundStep {St Req : Type} (dec : St → List Req) (act : St → Req → St)
    (s : St) : St :=
  runActs act s (dec s)

/-- Modelled from the spec: the ToolInvocationLoop of §4.4 (absent from the
source, which only binds tools to the model).  Up to `cap` round trips: ask
the decision function; zero requests exits with the current state, otherwise
execute them in order and loop; when the cap is exhausted the run fails with
`MaxIterationsExceeded`. -/
def toolLoop {St Req : Type} (dec : St → List Req) (act : St → Req → St) :
    Nat → St → Except LoopError St
  | 0, _ => .error .maxIterationsExceeded
  | cap+1, s =>
    match dec s with
    | [] => .ok s
    | r :: rs => toolLoop dec act cap (runActs act s (r :: rs))

/-! ### WorkflowState merge (spec §4.1)

Merging a node's returned dictionary into the state is done by the external
langgraph channel machinery, so the merge contract is modelled from the
spec.  Both TypedDict schemas in the source declare only replace-on-write
channels; the model covers both field kinds. -/

/-- The two field kinds of the merge contract. -/
inductive FieldKind
  | appendOnly
  | replaceOnWrite
  deriving Repr, DecidableEq

/-- Modelled from the spec: WorkflowState.merge at a single field.  A field
holds a sequence; an update holds the entries to merge (empty meaning the key
is absent).  Append-only fields concatenate in arrival order; replace-on-write
fields are overwritten when the update carries a value. -/
def mergeField {α : Type} : FieldKind → List α → List α → List α
  | .appendOnly, cur, upd => cur ++ upd
  | .replaceOnWrite, cur, upd =>
    match upd with
    | [] => cur
    | v => v

/-- Modelled from the spec: WorkflowState.merge over a keyed state, applying
`mergeField` at each key according to its declared kind. -/
def mergeState {κ α : Type} (kind : κ → FieldKind) (s u : κ → List α) :
    κ → List α :=
  fun k => mergeField (kind k) (s k) (u k)

/-! ### Concrete sample data (scenario 1 of the spec and friends) -/

/-- The input message of end-to-end scenario 1. -/
def sampleEmailText : String :=
  "Subject: Demo\nFrom: a@x.com\nPlease send the report by Friday."

/-- The initial interview state built by `main` for scenario 1. -/
def sampleState0 : Interview.AgentState :=
  { email_text := sampleEmailText, parsed := none, summary := none
    reply := none, event := none, timezone := "UTC" }

/-- The parse result scenario 1 expects. -/
def sampleParsed : Interview.ParsedEmail :=
  { sender := some "a@x.com", subject := some "Demo"
    body := "Please send the report by Friday." }

/-- The state right after `parse_email_node` in scenario 1. -/
def sampleStateParsed : Interview.AgentState :=
  { sampleState0 with parsed := some sampleParsed }

/-- A fixed clock: day 700, 22:39:05 local, in every zone. -/
def sampleClock : String → Interview.LocalDT := fun _ => ⟨700, 81545⟩

/-- A scenario-1 state that has also been through scheduling (an event is
present). -/
def sampleStateEvent : Interview.AgentState :=
  { sampleStateParsed with
    event := some (Interview.proposedPlan ⟨700, 81545⟩ sampleParsed) }

/-- Fixed model oracles for the Gmail pipeline. -/
def sampleGmailEnv : Gmail.GmailEnv :=
  { summarizeLLM := fun _ => "a summary"
    checkReplyLLM := fun _ => "NO"
    generateReplyLLM := fun _ => "a draft" }

/-- The case-insensitive-substring reading of the claim about
`check_reply_node`: some character run of the response maps to `YES` under
upper-casing. -/
def yesOccursCI (result : String) : Prop :=
  ∃ m : List Char, m.map Char.toUpper = "YES".data ∧ m <:+: result.data

/-! ### Helper lemmas -/

/-- The character-level substring test agrees with `List.IsInfix`. -/
theorem hasSub_iff (n h : List Char) : hasSub n h = true ↔ n <:+: h := by
  unfold hasSub
  rw [List.any_eq_true]
  constructor
  · rintro ⟨t, ht, hpre⟩
    rw [List.mem_tails t h] at ht
    rw [List.isPrefixOf_iff_prefix] at hpre
    exact List.infix_iff_prefix_suffix.mpr ⟨t, hpre, ht⟩
  · intro hinf
    obtain ⟨t, hpre, hsuf⟩ := List.infix_iff_prefix_suffix.mp hinf
    exact ⟨t, (List.mem_tails t h).mpr hsuf, List.isPrefixOf_iff_prefix.mpr hpre⟩

/-- An infix of a mapped list is the image of an infix. -/
theorem infix_map_iff (f : Char → Char) (ys l : List Char) :
    ys <:+: l.map f ↔ ∃ m, m.map f = ys ∧ m <:+: l := by
  constructor
  · rintro ⟨s, t, h⟩
    have h' : l.map f = s ++ (ys ++ t) := by
      rw [← h]; simp [List.append_assoc]
    obtain ⟨l₁, l₂, rfl, hs, hrest⟩ := List.map_eq_append_iff.mp h'
    obtain ⟨m, l₃, rfl, hm, ht⟩ := List.map_eq_append_iff.mp hrest
    exact ⟨m, hm, l₁, l₃, by simp [List.append_assoc]⟩
  · rintro ⟨m, hm, s, t, h⟩
    exact ⟨s.map f, t.map f, by rw [← h]; simp [hm]⟩

end AIAssist

/-! ## Claim theorems -/

namespace AIAssist

/-- C4.  Parsing the scenario-1 message yields sender `a@x.com`, subject
`Demo`, and the remaining line as the body, and `parse_email_node` stores
exactly that parse in the state. -/
theorem parse_email_demo_scenario :
    Interview.parse_email_node sampleState0
      = { sampleState0 with parsed := some sampleParsed } ∧
    (Interview.parse_email_node sampleState0).parsed
      = some { sender := some "a@x.com", subject := some "Demo"
               body := "Please send the report by Friday.", requested_times := [] } := by
  constructor <;> decide

/-- C10.  `check_reply_node` sets `needs_reply` to true exactly when `YES`
occurs case-insensitively as a substring of the model response; a response
containing `yesterday`, which is not the word YES, still comes out true. -/
theorem check_reply_yes_iff_substring (result : String) :
    (Gmail.yesFlag result = true ↔ yesOccursCI result) ∧
    Gmail.yesFlag "We met yesterday to review." = true ∧
    "We met yesterday to review." ≠ "YES" := by
  refine ⟨?_, by decide, by decide⟩
  rw [show Gmail.yesFlag result
        = hasSub "YES".data (result.data.map Char.toUpper) from rfl,
      hasSub_iff, infix_map_iff]
  exact Iff.rfl

/-- C3.  For any state with a parsed email and any timezone string, the
slot `schedule_node` proposes starts exactly one day ahead of the current
local time, at 10:00 (36000 seconds into the day), and its end is exactly
30 minutes (1800 seconds) later; when the operator accepts, exactly that
proposed plan is written to the state. -/
theorem schedule_slot_one_day_ahead_at_ten
    (clock : String → Interview.LocalDT) (s : Interview.AgentState)
    (p : Interview.ParsedEmail) (h : s.parsed = some p) (resp : String)
    (hacc : Interview.isAccept resp = true) (ovParse : Option Interview.LocalDT) :
    (Interview.proposedPlan (clock (Interview.resolveZone s.timezone)) p).start
      = ⟨(clock (Interview.resolveZone s.timezone)).day + 1, 36000⟩ ∧
    (Interview.proposedPlan (clock (Interview.resolveZone s.timezone)) p).stop
      = Interview.addSeconds
          (Interview.proposedPlan (clock (Interview.resolveZone s.timezone)) p).start 1800 ∧
    (Interview.proposedPlan (clock (Interview.resolveZone s.timezone)) p).stop
      = ⟨(clock (Interview.resolveZone s.timezone)).day + 1, 37800⟩ ∧
    Interview.schedule_node clock resp ovParse s
      = some { s with
               event := some (Interview.proposedPlan
                 (clock (Interview.resolveZone s.timezone)) p) } := by
  refine ⟨rfl, ?_, ?_, ?_⟩
  · simp [Interview.proposedPlan, Interview.proposeSlot, Interview.atTenLocal,
      Interview.addDays, Interview.addSeconds]
  · simp [Interview.proposedPlan, Interview.proposeSlot, Interview.atTenLocal,
      Interview.addDays, Interview.addSeconds]
  · simp [Interview.schedule_node, h, hacc]

/-- Witness for C3: the concrete scenario-1 state, clock day 700 at
22:39:05, operator accepting: the written slot starts on day 701 at
10:00:00. -/
theorem schedule_slot_witness :
    Interview.schedule_node sampleClock "y" none sampleStateParsed
      = some { sampleStateParsed with
               event := some (Interview.proposedPlan
                 (sampleClock (Interview.resolveZone sampleStateParsed.timezone))
                 sampleParsed) } ∧
    (Interview.proposedPlan
        (sampleClock (Interview.resolveZone sampleStateParsed.timezone))
        sampleParsed).start = ⟨701, 36000⟩ :=
  ⟨(schedule_slot_one_day_ahead_at_ten sampleClock sampleStateParsed sampleParsed
      rfl "y" (by decide) none).2.2.2,
   (schedule_slot_one_day_ahead_at_ten sampleClock sampleStateParsed sampleParsed
      rfl "y" (by decide) none).1⟩

/-- C1.  At each human checkpoint, operator response accept (`y`/`yes`)
writes the proposed value unchanged; a valid override (whose parsed form,
the stripped text or the parsed datetime, is the override value) is written
verbatim; in particular rejecting the proposed summary and entering
`Custom summary` leaves the final summary equal to `Custom summary`
exactly. -/
theorem checkpoint_accept_or_override
    (llmS : String → String)
    (llmR : Option String → Interview.EventPlan → String → String)
    (clock : String → Interview.LocalDT) (s : Interview.AgentState)
    (p : Interview.ParsedEmail) (plan : Interview.EventPlan)
    (resp ov : String) (d : Interview.LocalDT)
    (ovParse : Option Interview.LocalDT) :
    (s.parsed = some p → Interview.isAccept resp = true →
      Interview.summarize_node llmS resp ov s
        = some { s with summary := some (pyStrip (llmS p.body)) }) ∧
    (s.parsed = some p → Interview.isAccept resp = false → pyStrip ov = ov →
      Interview.summarize_node llmS resp ov s
        = some { s with summary := some ov }) ∧
    (s.event = some plan → Interview.isAccept resp = true →
      Interview.reply_node llmR resp ov s
        = some { s with
                 reply := some (pyStrip (llmR s.summary plan
                   (Interview.resolveZone s.timezone))) }) ∧
    (s.event = some plan → Interview.isAccept resp = false → pyStrip ov = ov →
      Interview.reply_node llmR resp ov s
        = some { s with reply := some ov }) ∧
    (s.parsed = some p → Interview.isAccept resp = true →
      Interview.schedule_node clock resp ovParse s
        = some { s with
                 event := some (Interview.proposedPlan
                   (clock (Interview.resolveZone s.timezone)) p) }) ∧
    (s.parsed = some p → Interview.isAccept resp = false →
      Interview.schedule_node clock resp (some d) s
        = some { s with
                 event := some ({ Interview.proposedPlan
                                    (clock (Interview.resolveZone s.timezone)) p with
                                  start := d,
                                  stop := Interview.addSeconds d 1800 }) }) ∧
    (s.parsed = some p →
      Interview.summarize_node llmS "n" "Custom summary" s
        = some { s with summary := some "Custom summary" }) := by
  refine ⟨?_, ?_, ?_, ?_, ?_, ?_, ?_⟩
  · intro h hacc; simp [Interview.summarize_node, h, hacc]
  · intro h hacc hov; simp [Interview.summarize_node, h, hacc, hov]
  · intro h hacc; simp [Interview.reply_node, h, hacc]
  · intro h hacc hov; simp [Interview.reply_node, h, hacc, hov]
  · intro h hacc; simp [Interview.schedule_node, h, hacc]
  · intro h hacc; simp [Interview.schedule_node, h, hacc]
  · intro h
    simp [Interview.summarize_node, h,
      show Interview.isAccept "n" = false from by decide,
      show pyStrip "Custom summary" = "Custom summary" from by decide]

/-- Witness for C1: with the scenario-1 parsed state, accepting keeps the
stripped model summary; accepting at the slot checkpoint keeps the proposed
plan; rejecting and typing `Custom summary` stores exactly
`Custom summary`. -/
theorem checkpoint_witness :
    Interview.summarize_node (fun _ => " model summary ") "y" "whatever"
        sampleStateParsed
      = some { sampleStateParsed with summary := some "model summary" } ∧
    Interview.schedule_node sampleClock "y" none sampleStateParsed
      = some { sampleStateParsed with
               event := some (Interview.proposedPlan
                 (sampleClock (Interview.resolveZone sampleStateParsed.timezone))
                 sampleParsed) } ∧
    Interview.summarize_node (fun _ => " model summary ") "n" "Custom summary"
        sampleStateParsed
      = some { sampleStateParsed with summary := some "Custom summary" } := by
  refine ⟨?_, ?_, ?_⟩
  · have h1 := (checkpoint_accept_or_override (fun _ => " model summary ")
      (fun _ _ _ => "r") sampleClock sampleStateParsed sampleParsed
      (Interview.proposedPlan ⟨0, 0⟩ sampleParsed) "y" "whatever" ⟨0, 0⟩ none).1
      rfl (by decide)
    rw [h1]
    decide
  · exact (checkpoint_accept_or_override (fun _ => " model summary ")
      (fun _ _ _ => "r") sampleClock sampleStateParsed sampleParsed
      (Interview.proposedPlan ⟨0, 0⟩ sampleParsed) "y" "whatever" ⟨0, 0⟩
      none).2.2.2.2.1 rfl (by decide)
  · exact (checkpoint_accept_or_override (fun _ => " model summary ")
      (fun _ _ _ => "r") sampleClock sampleStateParsed sampleParsed
      (Interview.proposedPlan ⟨0, 0⟩ sampleParsed) "n" "Custom summary"
      ⟨0, 0⟩ none).2.2.2.2.2.2 rfl

/-- Counterexample for C2: at the slot checkpoint, one single malformed
override (the operator rejects with `n` and the datetime fails to parse)
makes `schedule_node` write the original proposal at once, with no
re-prompt: exactly the immediate silent fallback the claim rules out. -/
theorem schedule_malformed_immediate_fallback_cex :
    Interview.isAccept "n" = false ∧
    Interview.schedule_node sampleClock "n" none sampleStateParsed
      = some { sampleStateParsed with
               event := some (Interview.proposedPlan ⟨700, 81545⟩ sampleParsed) } := by
  constructor <;> decide

/-- C2 as amended: when the override input at the slot checkpoint is
malformed (the datetime parse fails), the checkpoint immediately falls back
to the original proposed slot; there is no re-prompting and no retry
limit. -/
theorem schedule_malformed_falls_back_to_proposal
    (clock : String → Interview.LocalDT) (resp : String)
    (s : Interview.AgentState) (p : Interview.ParsedEmail)
    (h : s.parsed = some p) (hrej : Interview.isAccept resp = false) :
    Interview.schedule_node clock resp none s
      = some { s with
               event := some (Interview.proposedPlan
                 (clock (Interview.resolveZone s.timezone)) p) } := by
  simp [Interview.schedule_node, h, hrej]

/-- Witness for the amended C2 at a concrete rejected, malformed input. -/
theorem schedule_malformed_fallback_witness :
    Interview.schedule_node sampleClock "nope" none sampleStateParsed
      = some { sampleStateParsed with
               event := some (Interview.proposedPlan
                 (sampleClock (Interview.resolveZone sampleStateParsed.timezone))
                 sampleParsed) } :=
  schedule_malformed_falls_back_to_proposal sampleClock "nope" sampleStateParsed
    sampleParsed rfl (by decide)

/-- C5.  With any fuel of at least four steps, the executor visits the
interview nodes exactly once each, in the order parse_email, summarize,
schedule, reply, and the Gmail nodes in the order summarize, check_reply,
generate_reply, send_email, and it returns the state obtained by threading
the start state through the node functions in exactly that order (each
node's output is merged before the next node runs). -/
theorem pipelines_visit_nodes_in_graph_order
    (env : Interview.InterviewEnv) (st : Option Interview.AgentState)
    (genv : Gmail.GmailEnv) (gs : Gmail.EmailState × List Gmail.SendAction)
    (k : Nat) :
    runGraph (Interview.interviewGraph env) (k + 4) st
      = ([.parse_email, .summarize, .schedule, .reply],
         Interview.interviewStep env .reply
           (Interview.interviewStep env .schedule
             (Interview.interviewStep env .summarize
               (Interview.interviewStep env .parse_email st)))) ∧
    runGraph (Gmail.gmailGraph genv) (k + 4) gs
      = ([.summarize, .check_reply, .generate_reply, .send_email],
         Gmail.gmailStep genv .send_email
           (Gmail.gmailStep genv .generate_reply
             (Gmail.gmailStep genv .check_reply
               (Gmail.gmailStep genv .summarize gs)))) := by
  constructor <;> rfl

/-- Counterexample for C6: `parse_email_node` assigns into the incoming
state and returns the whole state, so the dictionary it hands back mentions
fields it did not change (`email_text`, `timezone`, ...) with their old
values: it is not a partial update describing what changed. -/
theorem parse_email_returns_entire_state_cex :
    Interview.mentionsUnchangedField sampleState0
      (Interview.parse_email_ret sampleState0) = true ∧
    (Interview.parse_email_ret sampleState0).email_text
      = some sampleState0.email_text ∧
    (Interview.parse_email_ret sampleState0).timezone
      = some sampleState0.timezone ∧
    (Interview.parse_email_ret sampleState0).summary
      = some sampleState0.summary := by
  refine ⟨?_, ?_, ?_, ?_⟩ <;> decide

/-- C6 as amended: the Gmail pipeline nodes return dictionaries holding
only the single key each one writes, while all four interview pipeline
nodes mutate the shared state and hand back the entire state (every key
present): each returned state agrees with the input state on every field
but its own, and its dictionary view mentions unchanged fields. -/
theorem gmail_nodes_return_changed_keys_only
    (env : Gmail.GmailEnv) (s : Gmail.EmailState) (t : Interview.AgentState)
    (llmS : String → String)
    (llmR : Option String → Interview.EventPlan → String → String)
    (clock : String → Interview.LocalDT) (resp ov : String)
    (ovParse : Option Interview.LocalDT)
    (p : Interview.ParsedEmail) (plan : Interview.EventPlan) :
    Gmail.summarize_node env s
      = { summary := some (some (Gmail.summarize_email_tool env s.email)) } ∧
    Gmail.check_reply_node env s
      = { needs_reply := some (some (Gmail.yesFlag (Gmail.check_reply_tool env s.email))) } ∧
    (Gmail.generate_reply_node env s
        = { draft_reply := some (some (Gmail.generate_reply_tool env s.email)) } ∨
     Gmail.generate_reply_node env s = { draft_reply := some none }) ∧
    (∃ st, (Gmail.send_email_node s).1 = { status := some (some st) }) ∧
    Interview.parse_email_ret t
      = Interview.stateAsUpdate (Interview.parse_email_node t) ∧
    (Interview.parse_email_ret t).email_text = some t.email_text ∧
    (Interview.parse_email_ret t).timezone = some t.timezone ∧
    (t.parsed = some p →
       (Interview.summarize_node llmS resp ov t).map
           (fun r => { r with summary := t.summary }) = some t) ∧
    (∀ r, Interview.summarize_node llmS resp ov t = some r →
       Interview.mentionsUnchangedField t (Interview.stateAsUpdate r) = true) ∧
    (t.parsed = some p →
       (Interview.schedule_node clock resp ovParse t).map
           (fun r => { r with event := t.event }) = some t) ∧
    (∀ r, Interview.schedule_node clock resp ovParse t = some r →
       Interview.mentionsUnchangedField t (Interview.stateAsUpdate r) = true) ∧
    (t.event = some plan →
       (Interview.reply_node llmR resp ov t).map
           (fun r => { r with reply := t.reply }) = some t) ∧
    (∀ r, Interview.reply_node llmR resp ov t = some r →
       Interview.mentionsUnchangedField t (Interview.stateAsUpdate r) = true) := by
  refine ⟨rfl, rfl, ?_, ?_, rfl, rfl, rfl, ?_, ?_, ?_, ?_, ?_, ?_⟩
  · by_cases h : s.needs_reply = some true
    · exact Or.inl (by simp [Gmail.generate_reply_node, h])
    · exact Or.inr (by simp [Gmail.generate_reply_node, h])
  · rcases h : s.draft_reply with _ | body
    · exact ⟨"No reply needed", by simp [Gmail.send_email_node, h]⟩
    · by_cases hb : pyTruthyStr body = true
      · exact ⟨Gmail.sendResult ⟨s.recipient, "Re: " ++ s.subject, body⟩,
          by simp [Gmail.send_email_node, h, hb]⟩
      · exact ⟨"No reply needed", by simp [Gmail.send_email_node, h, hb]⟩
  · intro h; simp [Interview.summarize_node, h]; rw [← h]
  · intro r hr
    cases hp : t.parsed with
    | none => simp [Interview.summarize_node, hp] at hr
    | some q =>
      simp [Interview.summarize_node, hp] at hr
      subst hr
      simp [Interview.mentionsUnchangedField, Interview.stateAsUpdate]
  · intro h; simp [Interview.schedule_node, h]; rw [← h]
  · intro r hr
    cases hp : t.parsed with
    | none => simp [Interview.schedule_node, hp] at hr
    | some q =>
      simp [Interview.schedule_node, hp] at hr
      subst hr
      simp [Interview.mentionsUnchangedField, Interview.stateAsUpdate]
  · intro h; simp [Interview.reply_node, h]; rw [← h]
  · intro r hr
    cases he : t.event with
    | none => simp [Interview.reply_node, he] at hr
    | some pl =>
      simp [Interview.reply_node, he] at hr
      subst hr
      simp [Interview.mentionsUnchangedField, Interview.stateAsUpdate]

/-- Witness for the amended C6: on the scenario-1 parsed state, the
summarize and schedule nodes return the entire state (stripping their own
field back recovers the input state, and the dictionary view repeats the
unchanged `email_text`), and on a state with an event the reply node does
too. -/
theorem interview_nodes_full_state_witness :
    (Interview.summarize_node (fun _ => "m") "y" "o" sampleStateParsed).map
        (fun r => { r with summary := sampleStateParsed.summary })
      = some sampleStateParsed ∧
    Interview.mentionsUnchangedField sampleStateParsed
      (Interview.stateAsUpdate { sampleStateParsed with summary := some "m" })
      = true ∧
    (Interview.schedule_node sampleClock "y" none sampleStateParsed).map
        (fun r => { r with event := sampleStateParsed.event })
      = some sampleStateParsed ∧
    (Interview.reply_node (fun _ _ _ => "d") "y" "o" sampleStateEvent).map
        (fun r => { r with reply := sampleStateEvent.reply })
      = some sampleStateEvent :=
  ⟨(gmail_nodes_return_changed_keys_only sampleGmailEnv
      { email := "e", recipient := "r", subject := "s" } sampleStateParsed
      (fun _ => "m") (fun _ _ _ => "d") sampleClock "y" "o" none sampleParsed
      (Interview.proposedPlan ⟨700, 81545⟩ sampleParsed)).2.2.2.2.2.2.2.1 rfl,
   (gmail_nodes_return_changed_keys_only sampleGmailEnv
      { email := "e", recipient := "r", subject := "s" } sampleStateParsed
      (fun _ => "m") (fun _ _ _ => "d") sampleClock "y" "o" none sampleParsed
      (Interview.proposedPlan ⟨700, 81545⟩ sampleParsed)).2.2.2.2.2.2.2.2.1
      { sampleStateParsed with summary := some "m" } (by decide),
   (gmail_nodes_return_changed_keys_only sampleGmailEnv
      { email := "e", recipient := "r", subject := "s" } sampleStateParsed
      (fun _ => "m") (fun _ _ _ => "d") sampleClock "y" "o" none sampleParsed
      (Interview.proposedPlan ⟨700, 81545⟩ sampleParsed)).2.2.2.2.2.2.2.2.2.1 rfl,
   (gmail_nodes_return_changed_keys_only sampleGmailEnv
      { email := "e", recipient := "r", subject := "s" } sampleStateEvent
      (fun _ => "m") (fun _ _ _ => "d") sampleClock "y" "o" none sampleParsed
      (Interview.proposedPlan ⟨700, 81545⟩ sampleParsed)).2.2.2.2.2.2.2.2.2.2.2.1
      rfl⟩

/-- C7.  The tool loop exits normally within the iteration cap whenever the
deciding function returns zero requests at some round below the cap, and
fails with MaxIterationsExceeded whenever the deciding function never
returns zero requests. -/
theorem toolLoop_terminates_or_exceeds
    {St Req : Type} (dec : St → List Req) (act : St → Req → St)
    (cap : Nat) (s0 : St) :
    ((∃ k, k < cap ∧ dec ((roundStep dec act)^[k] s0) = []) →
       ∃ s, toolLoop dec act cap s0 = .ok s) ∧
    ((∀ s, dec s ≠ []) →
       toolLoop dec act cap s0 = .error .maxIterationsExceeded) := by
  constructor
  · intro hev
    induction cap generalizing s0 with
    | zero => obtain ⟨k, hk, _⟩ := hev; omega
    | succ n ih =>
      obtain ⟨k, hk, hdec⟩ := hev
      cases hds : dec s0 with
      | nil => exact ⟨s0, by simp [toolLoop, hds]⟩
      | cons r rs =>
        cases k with
        | zero => simp at hdec; rw [hds] at hdec; exact absurd hdec (by simp)
        | succ j =>
          have hstep : (roundStep dec act)^[j+1] s0
              = (roundStep dec act)^[j] (roundStep dec act s0) :=
            Function.iterate_succ_apply _ _ _
          have hrs : roundStep dec act s0 = runActs act s0 (r :: rs) := by
            unfold roundStep; rw [hds]
          obtain ⟨s, hs⟩ := ih (runActs act s0 (r :: rs))
            ⟨j, by omega, by rw [← hrs, ← hstep]; exact hdec⟩
          exact ⟨s, by simpa [toolLoop, hds] using hs⟩
  · intro hnever
    induction cap generalizing s0 with
    | zero => rfl
    | succ n ih =>
      cases hds : dec s0 with
      | nil => exact absurd hds (hnever s0)
      | cons r rs => simpa [toolLoop, hds] using ih (runActs act s0 (r :: rs))

/-- Witness for C7: a counter that stops requesting after two rounds exits
normally under a cap of five, and a decider that always requests one action
exhausts the cap. -/
theorem toolLoop_witness :
    (∃ s, toolLoop (fun n => if n < 2 then [()] else []) (fun n _ => n + 1) 5 (0 : Nat)
            = .ok s) ∧
    toolLoop (fun _ : Nat => [()]) (fun n _ => n + 1) 5 0
      = .error .maxIterationsExceeded :=
  ⟨(toolLoop_terminates_or_exceeds (fun n => if n < 2 then [()] else [])
      (fun n _ => n + 1) 5 0).1 ⟨2, by decide, by decide⟩,
   (toolLoop_terminates_or_exceeds (fun _ : Nat => [()])
      (fun n _ => n + 1) 5 0).2 (fun _ => by simp)⟩

/-- C8.  Merging update A and then update B equals one merge of their
concatenation on every append-only field (entries concatenate in arrival
order, duplicates kept), and on every replace-on-write field the latest
write wins. -/
theorem mergeState_append_assoc_replace_latest
    {κ α : Type} (kind : κ → FieldKind) (s A B : κ → List α) (k : κ) :
    (kind k = .appendOnly →
       mergeState kind (mergeState kind s A) B k
         = mergeState kind s (fun j => A j ++ B j) k) ∧
    (kind k = .replaceOnWrite → B k ≠ [] →
       mergeState kind (mergeState kind s A) B k = B k) := by
  constructor
  · intro h; simp [mergeState, mergeField, h, List.append_assoc]
  · intro h hB
    cases hBk : B k with
    | nil => exact absurd hBk hB
    | cons b bs => simp [mergeState, mergeField, h, hBk]

/-- Witness for C8 over a two-field state: the append-only field gets the
concatenated log, the replace-on-write field the latest value. -/
theorem mergeState_witness :
    mergeState (fun b : Bool => if b then .appendOnly else .replaceOnWrite)
        (mergeState (fun b : Bool => if b then .appendOnly else .replaceOnWrite)
          (fun _ => [0]) (fun _ => [1])) (fun _ => [2, 2]) true
      = mergeState (fun b : Bool => if b then .appendOnly else .replaceOnWrite)
          (fun _ => [0])
          (fun j => (fun _ : Bool => [1]) j ++ (fun _ : Bool => [2, 2]) j) true ∧
    mergeState (fun b : Bool => if b then .appendOnly else .replaceOnWrite)
        (mergeState (fun b : Bool => if b then .appendOnly else .replaceOnWrite)
          (fun _ => [0]) (fun _ => [1])) (fun _ => [2, 2]) false
      = [2, 2] :=
  ⟨(mergeState_append_assoc_replace_latest
      (fun b : Bool => if b then .appendOnly else .replaceOnWrite)
      (fun _ => [0]) (fun _ => [1]) (fun _ => [2, 2]) true).1 (by decide),
   (mergeState_append_assoc_replace_latest
      (fun b : Bool => if b then .appendOnly else .replaceOnWrite)
      (fun _ => [0]) (fun _ => [1]) (fun _ => [2, 2]) false).2 (by decide) (by simp)⟩

/-- C9.  With a falsy draft (unset/None conflated as `none`, or the empty
string), `send_email_node` performs no send and reports `No reply needed`;
when `needs_reply` is false, `generate_reply_node` returns a `None` draft,
and therefore the subsequent `send_email_node` performs no send. -/
theorem no_send_when_no_reply_needed
    (env : Gmail.GmailEnv) (s t : Gmail.EmailState) :
    (s.draft_reply = none ∨ s.draft_reply = some "" →
       Gmail.send_email_node s
         = ({ status := some (some "No reply needed") }, [])) ∧
    (t.needs_reply = some false →
       Gmail.generate_reply_node env t = { draft_reply := some none }) ∧
    (t.needs_reply = some false →
       (Gmail.applyUpdate t (Gmail.generate_reply_node env t)).draft_reply = none ∧
       Gmail.send_email_node (Gmail.applyUpdate t (Gmail.generate_reply_node env t))
         = ({ status := some (some "No reply needed") }, [])) := by
  refine ⟨?_, ?_, ?_⟩
  · rintro (h | h)
    · simp [Gmail.send_email_node, h]
    · simp [Gmail.send_email_node, h, pyTruthyStr]
  · intro h; simp [Gmail.generate_reply_node, h]
  · intro h
    have hg : Gmail.generate_reply_node env t = { draft_reply := some none } := by
      simp [Gmail.generate_reply_node, h]
    rw [hg]
    constructor
    · simp [Gmail.applyUpdate]
    · simp [Gmail.send_email_node, Gmail.applyUpdate]

/-- Witness for C9: an empty draft yields no send; a state whose
`needs_reply` is false gets a `None` draft and then no send. -/
theorem no_send_witness :
    Gmail.send_email_node { email := "e", recipient := "r", subject := "s"
                            draft_reply := some "" }
      = ({ status := some (some "No reply needed") }, []) ∧
    Gmail.generate_reply_node sampleGmailEnv
        { email := "e", recipient := "r", subject := "s", needs_reply := some false }
      = { draft_reply := some none } ∧
    Gmail.send_email_node (Gmail.applyUpdate
        { email := "e", recipient := "r", subject := "s", needs_reply := some false }
        (Gmail.generate_reply_node sampleGmailEnv
          { email := "e", recipient := "r", subject := "s", needs_reply := some false }))
      = ({ status := some (some "No reply needed") }, []) :=
  ⟨(no_send_when_no_reply_needed sampleGmailEnv
      { email := "e", recipient := "r", subject := "s", draft_reply := some "" }
      { email := "e", recipient := "r", subject := "s", needs_reply := some false }).1
      (Or.inr rfl),
   (no_send_when_no_reply_needed sampleGmailEnv
      { email := "e", recipient := "r", subject := "s", draft_reply := some "" }
      { email := "e", recipient := "r", subject := "s", needs_reply := some false }).2.1
      rfl,
   ((no_send_when_no_reply_needed sampleGmailEnv
      { email := "e", recipient := "r", subject := "s", draft_reply := some "" }
      { email := "e", recipient := "r", subject := "s", needs_reply := some false }).2.2
      rfl).2⟩

end AIAssist
